import Mathlib

/-!
# NBA Salary Model — verification of the valuation and projection engine

Shallow embedding of the core of the `nbasalarymodel` repository:

* `js/constants.js` — season configuration, position categories, aging
  curves, inflation scalers and the salary-formula constants;
* the utility module (`getSeasonProgress`, `getAgingDelta`,
  `getPartialYearAgingDelta`, `getCumulativeAgingDelta`,
  `calculateSalary`);
* the projection pipeline of `js/components.jsx` (`PlayerDetails` and
  `SalaryProjections`).

Dates are embedded as rational millisecond timestamps (the value of
JavaScript `Date.getTime()` for the configured UTC dates).  JavaScript
number arithmetic is modelled by exact arithmetic: rating and aging
arithmetic over `ℚ`, the valuation formula over `ℝ` because the
star/replacement boost raises to the real power `1.2`.  `toFixed(1)`
is modelled as rounding to the nearest tenth.
-/

-- =========================================================================
-- SEASON_CONFIG (js/constants.js)
-- =========================================================================

/-- Embeds `SEASON_CONFIG.seasonStartDate = new Date('2025-10-22')`, as a
millisecond epoch timestamp (`Date.getTime()`). -/
def seasonStartDate : ℚ := 1761091200000

/-- Embeds `SEASON_CONFIG.seasonEndDate = new Date('2026-04-13')`, as a
millisecond epoch timestamp. -/
def seasonEndDate : ℚ := 1776038400000

/-- Embeds `SEASON_CONFIG.dataAsOfDate = new Date('2026-01-28')`, as a
millisecond epoch timestamp. -/
def dataAsOfDate : ℚ := 1769558400000

-- =========================================================================
-- getSeasonProgress (utility module)
-- =========================================================================

/-- Embeds `getSeasonProgress(asOfDate)`: elapsed fraction of the season,
`Math.max(0, Math.min(1, elapsed / seasonDuration))`.  The JavaScript
parameter default `asOfDate = SEASON_CONFIG.dataAsOfDate` is supplied
explicitly by callers of this embedding. -/
def getSeasonProgress (asOfDate : ℚ) : ℚ :=
  let seasonDuration := seasonEndDate - seasonStartDate
  let elapsed := asOfDate - seasonStartDate
  max 0 (min 1 (elapsed / seasonDuration))

-- =========================================================================
-- Position categories and aging curves (js/constants.js)
-- =========================================================================

/-- The three aging-curve categories of `AGING_CURVES`. -/
inductive AgingCategory where
  | guard
  | wing
  | big
deriving DecidableEq

/-- Embeds `POSITION_CATEGORIES`: maps the five known position codes to an
aging category; other codes are absent (JavaScript `undefined`). -/
def POSITION_CATEGORIES (position : String) : Option AgingCategory :=
  if position = "pg_pos" then some .guard
  else if position = "sg_pos" then some .guard
  else if position = "sf_pos" then some .wing
  else if position = "pf_pos" then some .big
  else if position = "c_pos" then some .big
  else none

/-- Embeds `DEFAULT_POSITION_CATEGORY = 'wing'`. -/
def DEFAULT_POSITION_CATEGORY : AgingCategory := .wing

/-- Embeds `AGING_CURVES`: per category, the (integer age → yearly DARKO delta)
dictionary, embedded as an association list. -/
def AGING_CURVES : AgingCategory → List (ℤ × ℚ)
  | .guard =>
      [(20, 0.60), (21, 0.50), (22, 0.40), (23, 0.30), (24, 0.15),
       (25, 0.08), (26, 0.03), (27, 0.00), (28, 0.00), (29, -0.08),
       (30, -0.15), (31, -0.25), (32, -0.40), (33, -0.55), (34, -0.75),
       (35, -1.00), (36, -1.30)]
  | .wing =>
      [(20, 0.65), (21, 0.55), (22, 0.45), (23, 0.35), (24, 0.20),
       (25, 0.10), (26, 0.03), (27, 0.00), (28, 0.00), (29, -0.05),
       (30, -0.10), (31, -0.18), (32, -0.28), (33, -0.42), (34, -0.58),
       (35, -0.80), (36, -1.05)]
  | .big =>
      [(20, 0.75), (21, 0.60), (22, 0.50), (23, 0.35), (24, 0.18),
       (25, 0.05), (26, 0.00), (27, -0.03), (28, -0.08), (29, -0.15),
       (30, -0.25), (31, -0.38), (32, -0.52), (33, -0.70), (34, -0.90),
       (35, -1.15), (36, -1.45)]

-- =========================================================================
-- Aging-curve functions (utility module)
-- =========================================================================

/-- Embeds `POSITION_CATEGORIES[position] || DEFAULT_POSITION_CATEGORY` (the
dictionary's values are non-empty strings, so JavaScript truthiness
coincides with definedness). -/
def positionCategory (position : String) : AgingCategory :=
  (POSITION_CATEGORIES position).getD DEFAULT_POSITION_CATEGORY

/-- Embeds `Math.max(20, Math.min(36, Math.floor(age)))` — the table key used
by `getAgingDelta`. -/
def ageKey (age : ℚ) : ℤ := max 20 (min 36 ⌊age⌋)

/-- The raw `curve[ageKey]` dictionary access of `getAgingDelta`
(`undefined` ↦ `none`). -/
def agingCurveLookup (age : ℚ) (position : String) : Option ℚ :=
  List.lookup (ageKey age) (AGING_CURVES (positionCategory position))

/-- Embeds `getAgingDelta(age, position)`: full-year DARKO delta from the
category's curve at the clamped integer age.  The lookup is always
defined (`agingCurveLookup_isSome`), so the `getD 0` default is never
exercised. -/
def getAgingDelta (age : ℚ) (position : String) : ℚ :=
  (agingCurveLookup age position).getD 0

/-- Category-level variant of `getAgingDelta` (the spec's
`fullYearDelta(age, category)`); `getAgingDelta` factors through it. -/
def fullYearDelta (age : ℚ) (category : AgingCategory) : ℚ :=
  (List.lookup (ageKey age) (AGING_CURVES category)).getD 0

/-- Embeds `getPartialYearAgingDelta(age, position, asOfDate)`: full-year delta
scaled by the season progress at `asOfDate` (JavaScript defaults
`asOfDate` to `SEASON_CONFIG.dataAsOfDate`). -/
def getPartialYearAgingDelta (age : ℚ) (position : String) (asOfDate : ℚ) : ℚ :=
  getAgingDelta age position * getSeasonProgress asOfDate

/-- Embeds `getCumulativeAgingDelta(currentAge, position, yearsForward,
includePartialCurrentYear)`: starting from the optional partial-year
delta (taken at the default `dataAsOfDate`, as in the source), the
`for`-loop accumulates `getAgingDelta(currentAge + i, position)` for
`i = 0, …, yearsForward - 1`. -/
def getCumulativeAgingDelta (currentAge : ℚ) (position : String)
    (yearsForward : ℕ) (includePartialCurrentYear : Bool) : ℚ :=
  let init : ℚ :=
    if includePartialCurrentYear then
      getPartialYearAgingDelta currentAge position dataAsOfDate
    else 0
  (List.range yearsForward).foldl
    (fun acc (i : ℕ) => acc + getAgingDelta (currentAge + (i : ℚ)) position) init

-- =========================================================================
-- SALARY_CONSTANTS (js/constants.js)
-- =========================================================================

/-- Embeds `SALARY_CONSTANTS.REPLACEMENT_LEVEL_DARKO = -3.0`. -/
def REPLACEMENT_LEVEL_DARKO : ℝ := -3.0

/-- Embeds `SALARY_CONSTANTS.MINUTES_BASELINE = 1475`. -/
def MINUTES_BASELINE : ℝ := 1475

/-- Embeds `SALARY_CONSTANTS.WIN_COST_MILLIONS = 4.32`. -/
def WIN_COST_MILLIONS : ℝ := 4.32

/-- Embeds `SALARY_CONSTANTS.MVP_BONUS_CAP = 0.10`. -/
def MVP_BONUS_CAP : ℝ := 0.10

/-- Embeds `SALARY_CONSTANTS.MVP_BONUS_EXPONENT = 1.2`. -/
def MVP_BONUS_EXPONENT : ℝ := 1.2

/-- Embeds `SALARY_CONSTANTS.MVP_BONUS_DIVISOR = 4`. -/
def MVP_BONUS_DIVISOR : ℝ := 4

/-- Embeds `SALARY_CONSTANTS.MINIMUM_SALARY_THRESHOLD = 3.0`. -/
def MINIMUM_SALARY_THRESHOLD : ℝ := 3.0

-- =========================================================================
-- calculateSalary (utility module)
-- =========================================================================

/-- Result of `calculateSalary`: either the string `"Minimum Salary"`
(the league-minimum sentinel) or the numeric salary in millions that
the returned `toFixed(1)` string denotes. -/
inductive SalaryResult where
  | minimumSalary
  | value (v : ℝ)
deriving Inhabited

/-- The first assignment to `salary` in `calculateSalary`:
`(games * minutes / MINUTES_BASELINE) * (darko - REPLACEMENT_LEVEL_DARKO)
 * WIN_COST_MILLIONS`. -/
noncomputable def baseSalary (games minutes darko : ℝ) : ℝ :=
  games * minutes / MINUTES_BASELINE * (darko - REPLACEMENT_LEVEL_DARKO)
    * WIN_COST_MILLIONS

/-- Embeds `boostFactor = Math.pow(Math.abs(darko) / MVP_BONUS_DIVISOR,
MVP_BONUS_EXPONENT) * MVP_BONUS_CAP`, with `Math.pow` on the
nonnegative base embedded as the real power. -/
noncomputable def boostFactor (darko : ℝ) : ℝ :=
  (|darko| / MVP_BONUS_DIVISOR) ^ MVP_BONUS_EXPONENT * MVP_BONUS_CAP

/-- Embeds `cappedBoost = Math.min(boostFactor, MVP_BONUS_CAP)`. -/
noncomputable def cappedBoost (darko : ℝ) : ℝ :=
  min (boostFactor darko) MVP_BONUS_CAP

/-- The value of `salary` after the star-bonus / replacement-penalty
branch of `calculateSalary`. -/
noncomputable def adjustedSalary (games minutes darko : ℝ) : ℝ :=
  if 0 < darko then baseSalary games minutes darko * (1 + cappedBoost darko)
  else if darko < 0 then baseSalary games minutes darko * (1 - cappedBoost darko)
  else baseSalary games minutes darko

/-- Models `salary.toFixed(1)` read back as a number: round to the nearest
tenth. -/
noncomputable def toFixed1 (salary : ℝ) : ℝ := round (salary * 10) / 10

/-- Embeds `calculateSalary(games, minutes, darko)`: the adjusted salary,
floored at the minimum-salary sentinel when it falls below
`MINIMUM_SALARY_THRESHOLD`, otherwise rounded to one decimal. -/
noncomputable def calculateSalary (games minutes darko : ℝ) : SalaryResult :=
  if adjustedSalary games minutes darko < MINIMUM_SALARY_THRESHOLD then
    .minimumSalary
  else
    .value (toFixed1 (adjustedSalary games minutes darko))

-- =========================================================================
-- Inflation scalers and future seasons (js/constants.js)
-- =========================================================================

/-- Embeds `INFLATION_SCALERS`: salary-cap growth multiplier per future season
label; other labels are absent. -/
def INFLATION_SCALERS (seasonLabel : String) : Option ℚ :=
  if seasonLabel = "2026-27" then some 1.074
  else if seasonLabel = "2027-28" then some 1.127
  else if seasonLabel = "2028-29" then some 1.184
  else if seasonLabel = "2029-30" then some 1.240
  else if seasonLabel = "2030-31" then some 1.305
  else none

/-- Embeds `FUTURE_YEARS`: the five projected season labels, in order. -/
def FUTURE_YEARS : List String :=
  ["2026-27", "2027-28", "2028-29", "2029-30", "2030-31"]

-- =========================================================================
-- Projection pipeline (js/components.jsx)
-- =========================================================================

/-- The fields of a player record consumed by the projection pipeline.
`actualSalary` is `0` for a free agent (JavaScript treats both `0` and
an absent figure as falsy); `futureSalaries` is the sparse
season-label-keyed contract map. -/
structure Player where
  age : ℚ
  pos : String
  darko : ℚ
  actualSalary : ℚ
  futureSalaries : String → Option ℚ

/-- The user-editable comparison scenario fields used by the pipeline
(`comp.games`, `comp.minutes`, `comp.improvement`). -/
structure Scenario where
  games : ℚ
  minutes : ℚ
  improvement : ℚ

/-- Embeds `currentYearAgingDelta = getPartialYearAgingDelta(player.age,
player.pos)` in `PlayerDetails` (default as-of date). -/
def currentYearAgingDelta (p : Player) : ℚ :=
  getPartialYearAgingDelta p.age p.pos dataAsOfDate

/-- Embeds `adjustedDarkoWithAging = player.darko + comp.improvement +
currentYearAgingDelta` in `PlayerDetails`. -/
def adjustedDarkoWithAging (p : Player) (s : Scenario) : ℚ :=
  p.darko + s.improvement + currentYearAgingDelta p

/-- Embeds `currentYearSalary = calculateSalary(comp.games, comp.minutes,
adjustedDarkoWithAging)` in `PlayerDetails`. -/
noncomputable def currentYearSalary (p : Player) (s : Scenario) : SalaryResult :=
  calculateSalary (s.games : ℝ) (s.minutes : ℝ) ((adjustedDarkoWithAging p s : ℚ) : ℝ)

/-- Embeds `currentYearSalary === "Minimum Salary" ? 0 :
parseFloat(currentYearSalary)` in `SalaryProjections`. -/
noncomputable def currentProjNum (p : Player) (s : Scenario) : ℝ :=
  match currentYearSalary p s with
  | .minimumSalary => 0
  | .value v => v

/-- The value of `runningTotalSurplus` before the future-year loop of
`SalaryProjections`: `currentProjNum - player.actualSalary` when
`player.actualSalary` is truthy, else `0`. -/
noncomputable def initialSurplus (p : Player) (s : Scenario) : ℝ :=
  if p.actualSalary ≠ 0 then currentProjNum p s - (p.actualSalary : ℝ) else 0

/-- The inline `for`-loop of `SalaryProjections` that accumulates
`getAgingDelta(player.age + i, player.pos)` for `i < yearOffset`. -/
def inlineCumulativeDelta (p : Player) (yearOffset : ℕ) : ℚ :=
  (List.range yearOffset).foldl
    (fun acc (i : ℕ) => acc + getAgingDelta (p.age + (i : ℚ)) p.pos) 0

/-- Embeds `projectedDarko = player.darko + improvement + cumulativeDelta` for
a future row. -/
def projectedDarko (p : Player) (s : Scenario) (yearOffset : ℕ) : ℚ :=
  p.darko + s.improvement + inlineCumulativeDelta p yearOffset

/-- Embeds `rawSalary = calculateSalary(games, minutes, projectedDarko)` for a
future row. -/
noncomputable def rawSalary (p : Player) (s : Scenario) (yearOffset : ℕ) : SalaryResult :=
  calculateSalary (s.games : ℝ) (s.minutes : ℝ) ((projectedDarko p s yearOffset : ℚ) : ℝ)

/-- Embeds `inflatedValue` for a future row: `0` when the raw salary is the
sentinel, otherwise `parseFloat(rawSalary) *
(INFLATION_SCALERS[seasonLabel] || 1)` (the scalers are nonzero, so
truthiness coincides with definedness). -/
noncomputable def inflatedValue (p : Player) (s : Scenario)
    (yearOffset : ℕ) (seasonLabel : String) : ℝ :=
  match rawSalary p s yearOffset with
  | .minimumSalary => 0
  | .value v => v * (((INFLATION_SCALERS seasonLabel).getD 1 : ℚ) : ℝ)

/-- The displayed projected salary of a future row: `"Min"` for the
sentinel, otherwise the inflated value. -/
inductive DisplaySalary where
  | minLabel
  | money (v : ℝ)
deriving Inhabited

/-- One element of `futureRows` in `SalaryProjections`. -/
structure ProjectionRow where
  seasonLabel : String
  projectedAge : ℚ
  displaySalary : DisplaySalary
  actualSalary : Option ℚ
  surplus : Option ℝ

/-- The row built by the `FUTURE_YEARS.map` body for index `idx` and
label `seasonLabel` (`yearOffset = idx + 1`).  `surplus` is
`inflatedValue - actualSalary` when the future salary is truthy
(present and nonzero), else `null`. -/
noncomputable def futureRow (p : Player) (s : Scenario)
    (idx : ℕ) (seasonLabel : String) : ProjectionRow :=
  { seasonLabel := seasonLabel
    projectedAge := p.age + ((idx + 1 : ℕ) : ℚ)
    displaySalary :=
      match rawSalary p s (idx + 1) with
      | .minimumSalary => .minLabel
      | .value _ => .money (inflatedValue p s (idx + 1) seasonLabel)
    actualSalary := p.futureSalaries seasonLabel
    surplus :=
      match p.futureSalaries seasonLabel with
      | some a => if a ≠ 0 then some (inflatedValue p s (idx + 1) seasonLabel - (a : ℝ)) else none
      | none => none }

/-- Embeds `futureRows = FUTURE_YEARS.map((seasonLabel, idx) => …)`. -/
noncomputable def futureRows (p : Player) (s : Scenario) : List ProjectionRow :=
  FUTURE_YEARS.enum.map fun pair => futureRow p s pair.1 pair.2

/-- The final value of `runningTotalSurplus`: starting from
`initialSurplus`, each row with a non-null surplus adds it. -/
noncomputable def runningTotalSurplus (p : Player) (s : Scenario) : ℝ :=
  (futureRows p s).foldl
    (fun acc r => match r.surplus with | some v => acc + v | none => acc)
    (initialSurplus p s)

/-- JavaScript truthiness of an optional salary figure: present and
nonzero. -/
def optTruthy : Option ℚ → Bool
  | some a => decide (a ≠ 0)
  | none => false

/-- Spec-side description (§4.4) of the displayed value of future season
`k` (1-indexed): the valuation at
`baseRating + manualAdjustment + cumulativeDelta(currentAge, cat, k, false)`,
multiplied by the season's inflation multiplier (default `1`), or the
sentinel.  Stated from the spec's words, to be compared with the
pipeline's `futureRow`. -/
noncomputable def specSeasonValue (p : Player) (s : Scenario)
    (k : ℕ) (seasonLabel : String) : DisplaySalary :=
  match calculateSalary (s.games : ℝ) (s.minutes : ℝ)
      ((p.darko + s.improvement + getCumulativeAgingDelta p.age p.pos k false : ℚ) : ℝ) with
  | .minimumSalary => .minLabel
  | .value v => .money (v * (((INFLATION_SCALERS seasonLabel).getD 1 : ℚ) : ℝ))

/-- Sample free agent (`actualSalary = 0`) whose `2026-27` contract
figure is `0` (falsy). -/
def zeroSalaryPlayer : Player :=
  { age := 25, pos := "pg_pos", darko := 0, actualSalary := 0
    futureSalaries := fun lab => if lab = "2026-27" then some 0 else none }

/-- Sample player under contract now (`10`) and in `2026-27` (`5`). -/
def minValuedPlayer : Player :=
  { age := 25, pos := "pg_pos", darko := 0, actualSalary := 10
    futureSalaries := fun lab => if lab = "2026-27" then some 5 else none }

/-- Sample scenario with no playing time: every valuation is below the
minimum-salary threshold. -/
def benchScenario : Scenario := { games := 0, minutes := 0, improvement := 0 }

-- =========================================================================
-- Helper lemmas
-- =========================================================================

/-- The season duration `seasonEndDate - seasonStartDate` is positive. -/
lemma seasonDuration_pos : (0 : ℚ) < seasonEndDate - seasonStartDate := by
  norm_num [seasonStartDate, seasonEndDate]

/-- The table key is always in the defined range `[20, 36]`. -/
lemma ageKey_bounds (age : ℚ) : 20 ≤ ageKey age ∧ ageKey age ≤ 36 :=
  ⟨le_max_left _ _, max_le (by norm_num) (min_le_left _ _)⟩

/-- Every age in `[20, 36]` is present in every category's curve. -/
lemma lookup_isSome_of_bounds (category : AgingCategory) (a : ℤ)
    (h1 : 20 ≤ a) (h2 : a ≤ 36) :
    (List.lookup a (AGING_CURVES category)).isSome := by
  cases category <;> interval_cases a <;> simp [AGING_CURVES, List.lookup]

/-- The dictionary access of `getAgingDelta` never returns `undefined`. -/
lemma agingCurveLookup_isSome (age : ℚ) (position : String) :
    (agingCurveLookup age position).isSome :=
  lookup_isSome_of_bounds _ _ (ageKey_bounds age).1 (ageKey_bounds age).2

/-- A left fold of additions over `List.range` is the starting value
plus the finite sum. -/
lemma foldl_add_range (f : ℕ → ℚ) (init : ℚ) (n : ℕ) :
    (List.range n).foldl (fun acc (i : ℕ) => acc + f i) init
      = init + ∑ i ∈ Finset.range n, f i := by
  induction n with
  | zero => simp
  | succ k ih =>
      rw [List.range_succ, List.foldl_append, ih, Finset.sum_range_succ,
        List.foldl_cons, List.foldl_nil, add_assoc]

-- =========================================================================
-- C8 — season progress
-- =========================================================================

/-- C8: `getSeasonProgress(asOfDate)` equals
`clamp((asOfDate - seasonStart) / (seasonEnd - seasonStart), 0, 1)`: it
returns `0` at or before the season start, `1` at or after the season
end, always lies in `[0, 1]`, and is monotone in the date. -/
theorem getSeasonProgress_clamp_monotone :
    (∀ t : ℚ, getSeasonProgress t
        = max 0 (min 1 ((t - seasonStartDate) / (seasonEndDate - seasonStartDate)))) ∧
    (∀ t : ℚ, t ≤ seasonStartDate → getSeasonProgress t = 0) ∧
    (∀ t : ℚ, seasonEndDate ≤ t → getSeasonProgress t = 1) ∧
    (∀ t : ℚ, 0 ≤ getSeasonProgress t ∧ getSeasonProgress t ≤ 1) ∧
    (∀ t₁ t₂ : ℚ, t₁ ≤ t₂ → getSeasonProgress t₁ ≤ getSeasonProgress t₂) := by
  refine ⟨fun t => rfl, fun t ht => ?_, fun t ht => ?_, fun t => ⟨le_max_left _ _, ?_⟩,
    fun t₁ t₂ h => ?_⟩
  · have hq : (t - seasonStartDate) / (seasonEndDate - seasonStartDate) ≤ 0 :=
      div_nonpos_iff.mpr (Or.inr ⟨sub_nonpos.mpr ht, le_of_lt seasonDuration_pos⟩)
    exact max_eq_left (le_trans (min_le_right _ _) hq)
  · have hq : 1 ≤ (t - seasonStartDate) / (seasonEndDate - seasonStartDate) :=
      (one_le_div seasonDuration_pos).mpr (by linarith)
    rw [getSeasonProgress, min_eq_left hq]
    exact max_eq_right zero_le_one
  · exact max_le zero_le_one (min_le_left _ _)
  · have hq : (t₁ - seasonStartDate) / (seasonEndDate - seasonStartDate)
        ≤ (t₂ - seasonStartDate) / (seasonEndDate - seasonStartDate) :=
      (div_le_div_iff_of_pos_right seasonDuration_pos).mpr (by linarith)
    exact max_le_max le_rfl (min_le_min le_rfl hq)

/-- C8 witness: the clamp behaviour at the configured season endpoints
and the monotone comparison at the data-refresh date. -/
theorem getSeasonProgress_clamp_monotone_witness :
    seasonStartDate ≤ seasonStartDate ∧ getSeasonProgress seasonStartDate = 0 ∧
    seasonEndDate ≤ seasonEndDate ∧ getSeasonProgress seasonEndDate = 1 ∧
    dataAsOfDate ≤ seasonEndDate ∧
    getSeasonProgress dataAsOfDate ≤ getSeasonProgress seasonEndDate :=
  ⟨le_refl _, getSeasonProgress_clamp_monotone.2.1 seasonStartDate (le_refl _),
    le_refl _, getSeasonProgress_clamp_monotone.2.2.1 seasonEndDate (le_refl _),
    by norm_num [dataAsOfDate, seasonEndDate],
    getSeasonProgress_clamp_monotone.2.2.2.2 dataAsOfDate seasonEndDate
      (by norm_num [dataAsOfDate, seasonEndDate])⟩

-- =========================================================================
-- C7 — aging table completeness and clamping
-- =========================================================================

/-- Ages below the table floor clamp to the key `20`. -/
lemma ageKey_of_lt_20 (age : ℚ) (h : age < 20) : ageKey age = 20 := by
  have hf : ⌊age⌋ < 20 := Int.floor_lt.mpr (by exact_mod_cast h)
  rw [ageKey, min_eq_right (by omega : ⌊age⌋ ≤ 36), max_eq_left (by omega)]

/-- Ages at or above the table ceiling clamp to the key `36`. -/
lemma ageKey_of_ge_36 (age : ℚ) (h : 36 ≤ age) : ageKey age = 36 := by
  have hf : (36 : ℤ) ≤ ⌊age⌋ := Int.le_floor.mpr (by exact_mod_cast h)
  rw [ageKey, min_eq_left hf, max_eq_right (by omega)]

/-- Value of `ageKey` at the exact integer boundary `20`. -/
lemma ageKey_twenty : ageKey 20 = 20 := by
  have : ⌊(20 : ℚ)⌋ = 20 := by norm_num [Int.floor_eq_iff]
  rw [ageKey, this]
  decide

/-- Value of `ageKey` at the exact integer boundary `36`. -/
lemma ageKey_thirtysix : ageKey 36 = 36 := by
  have : ⌊(36 : ℚ)⌋ = 36 := by norm_num [Int.floor_eq_iff]
  rw [ageKey, this]
  decide

/-- Below `20`, the full-year delta is the boundary value at `20`. -/
lemma fullYearDelta_clamp_low (age : ℚ) (category : AgingCategory)
    (h : age < 20) : fullYearDelta age category = fullYearDelta 20 category := by
  rw [fullYearDelta, fullYearDelta, ageKey_of_lt_20 age h, ageKey_twenty]

/-- At or above `36`, the full-year delta is the boundary value at `36`. -/
lemma fullYearDelta_clamp_high (age : ℚ) (category : AgingCategory)
    (h : 36 ≤ age) : fullYearDelta age category = fullYearDelta 36 category := by
  rw [fullYearDelta, fullYearDelta, ageKey_of_ge_36 age h, ageKey_thirtysix]

/-- C7: every integer age in `[20, 36]` is present in every category's
aging table; the lookup behind `getAgingDelta` never fails; ages below
`20` or at/above `36` return the boundary values, in particular at `15`
for guards and at `50` for bigs; and `getAgingDelta` is the
category-level full-year delta at the resolved category. -/
theorem agingTable_complete :
    (∀ category : AgingCategory, ∀ a : ℤ, 20 ≤ a → a ≤ 36 →
      (List.lookup a (AGING_CURVES category)).isSome) ∧
    (∀ age : ℚ, ∀ position : String, (agingCurveLookup age position).isSome) ∧
    (∀ age : ℚ, ∀ category : AgingCategory, age < 20 →
      fullYearDelta age category = fullYearDelta 20 category) ∧
    (∀ age : ℚ, ∀ category : AgingCategory, 36 ≤ age →
      fullYearDelta age category = fullYearDelta 36 category) ∧
    fullYearDelta 15 .guard = fullYearDelta 20 .guard ∧
    fullYearDelta 50 .big = fullYearDelta 36 .big ∧
    (∀ age : ℚ, ∀ position : String,
      getAgingDelta age position = fullYearDelta age (positionCategory position)) :=
  ⟨lookup_isSome_of_bounds, agingCurveLookup_isSome, fullYearDelta_clamp_low,
    fullYearDelta_clamp_high, fullYearDelta_clamp_low 15 .guard (by norm_num),
    fullYearDelta_clamp_high 50 .big (by norm_num), fun _ _ => rfl⟩

/-- C7 witness: concrete instances of the completeness and clamping
facts (age `25` guard, age `27.5` center, the spec's `15`-guard and
`50`-big boundary examples). -/
theorem agingTable_complete_witness :
    ((20 : ℤ) ≤ 25 ∧ (25 : ℤ) ≤ 36 ∧
      (List.lookup (25 : ℤ) (AGING_CURVES .guard)).isSome) ∧
    (agingCurveLookup 27.5 "c_pos").isSome ∧
    ((15 : ℚ) < 20 ∧ fullYearDelta 15 .guard = fullYearDelta 20 .guard) ∧
    ((36 : ℚ) ≤ 50 ∧ fullYearDelta 50 .big = fullYearDelta 36 .big) :=
  ⟨⟨by norm_num, by norm_num, agingTable_complete.1 .guard 25 (by norm_num) (by norm_num)⟩,
    agingTable_complete.2.1 27.5 "c_pos",
    ⟨by norm_num, agingTable_complete.2.2.1 15 .guard (by norm_num)⟩,
    ⟨by norm_num, agingTable_complete.2.2.2.1 50 .big (by norm_num)⟩⟩

-- =========================================================================
-- C9 — unknown position codes default to the wing curve
-- =========================================================================

/-- C9: a position code other than the five known ones resolves to the
default (wing) aging category, so its delta agrees with `'sf_pos'` at
every age, and the lookup still succeeds. -/
theorem unknownPosition_uses_wing (age : ℚ) (position : String)
    (h : position ∉ ["pg_pos", "sg_pos", "sf_pos", "pf_pos", "c_pos"]) :
    getAgingDelta age position = getAgingDelta age "sf_pos" ∧
    positionCategory position = DEFAULT_POSITION_CATEGORY ∧
    (agingCurveLookup age position).isSome := by
  have h' : position ≠ "pg_pos" ∧ position ≠ "sg_pos" ∧ position ≠ "sf_pos" ∧
      position ≠ "pf_pos" ∧ position ≠ "c_pos" := by
    simpa [not_or] using h
  obtain ⟨h1, h2, h3, h4, h5⟩ := h'
  have hcat : positionCategory position = DEFAULT_POSITION_CATEGORY := by
    simp [positionCategory, POSITION_CATEGORIES, h1, h2, h3, h4, h5]
  have hsf : positionCategory "sf_pos" = AgingCategory.wing := by
    simp [positionCategory, POSITION_CATEGORIES]
  refine ⟨?_, hcat, agingCurveLookup_isSome age position⟩
  rw [getAgingDelta, getAgingDelta, agingCurveLookup, agingCurveLookup, hcat, hsf]
  rfl

/-- C9 witness: the unknown code `"xx_pos"` behaves like `'sf_pos'` at
age `25`. -/
theorem unknownPosition_uses_wing_witness :
    ("xx_pos" ∉ ["pg_pos", "sg_pos", "sf_pos", "pf_pos", "c_pos"]) ∧
    getAgingDelta 25 "xx_pos" = getAgingDelta 25 "sf_pos" :=
  ⟨by decide, (unknownPosition_uses_wing 25 "xx_pos" (by decide)).1⟩

-- =========================================================================
-- C6 — cumulative delta decomposition
-- =========================================================================

/-- C6: with `includePartialCurrentYear = false`,
`getCumulativeAgingDelta` is exactly the sum of the full-year deltas
`getAgingDelta(age + i)` for `i ∈ [0, n)` — an expression with no
season-progress term — and the inline accumulation loop of
`SalaryProjections` computes the same value. -/
theorem cumulativeDelta_decomposition (currentAge : ℚ) (position : String)
    (n : ℕ) (p : Player) :
    getCumulativeAgingDelta currentAge position n false
      = ∑ i ∈ Finset.range n, getAgingDelta (currentAge + (i : ℚ)) position ∧
    inlineCumulativeDelta p n = getCumulativeAgingDelta p.age p.pos n false := by
  have hfold : ∀ (a : ℚ) (q : String),
      getCumulativeAgingDelta a q n false
        = (List.range n).foldl (fun acc (i : ℕ) => acc + getAgingDelta (a + (i : ℚ)) q) 0 :=
    fun a q => rfl
  refine ⟨?_, ?_⟩
  · rw [hfold, foldl_add_range, zero_add]
  · rw [inlineCumulativeDelta, hfold]

-- =========================================================================
-- C1 — minimum-salary floor
-- =========================================================================

/-- Rounding to one decimal preserves the `≥ 3` threshold. -/
lemma toFixed1_ge_threshold (x : ℝ) (h : MINIMUM_SALARY_THRESHOLD ≤ x) :
    MINIMUM_SALARY_THRESHOLD ≤ toFixed1 x := by
  rw [MINIMUM_SALARY_THRESHOLD] at h ⊢
  have h1 : (30 : ℝ) + 1 / 2 ≤ x * 10 + 1 / 2 := by linarith
  have h2 : (30 : ℤ) ≤ ⌊x * 10 + 1 / 2⌋ := by
    have h3 : ⌊(30 : ℝ) + 1 / 2⌋ = 30 := by norm_num [Int.floor_eq_iff]
    calc (30 : ℤ) = ⌊(30 : ℝ) + 1 / 2⌋ := h3.symm
      _ ≤ ⌊x * 10 + 1 / 2⌋ := Int.floor_mono h1
  have h4 : (30 : ℝ) ≤ (⌊x * 10 + 1 / 2⌋ : ℝ) := by exact_mod_cast h2
  rw [toFixed1, round_eq]
  linarith

/-- C1: if the adjusted salary is strictly below the threshold,
`calculateSalary` returns the minimum-salary sentinel; otherwise it
returns the adjusted salary rounded to one decimal; and any numeric
value it returns is at least the threshold `3.0`. -/
theorem calculateSalary_floor (games minutes darko : ℝ) :
    (adjustedSalary games minutes darko < MINIMUM_SALARY_THRESHOLD →
      calculateSalary games minutes darko = .minimumSalary) ∧
    (MINIMUM_SALARY_THRESHOLD ≤ adjustedSalary games minutes darko →
      calculateSalary games minutes darko
        = .value (toFixed1 (adjustedSalary games minutes darko))) ∧
    (∀ v : ℝ, calculateSalary games minutes darko = .value v →
      MINIMUM_SALARY_THRESHOLD ≤ v) := by
  refine ⟨fun h => ?_, fun h => ?_, fun v hv => ?_⟩
  · rw [calculateSalary, if_pos h]
  · rw [calculateSalary, if_neg (not_lt.mpr h)]
  · by_cases h : adjustedSalary games minutes darko < MINIMUM_SALARY_THRESHOLD
    · rw [calculateSalary, if_pos h] at hv
      exact absurd hv (by simp)
    · rw [calculateSalary, if_neg h, SalaryResult.value.injEq] at hv
      rw [← hv]
      exact toFixed1_ge_threshold _ (not_lt.mp h)

/-- C1 witness: with no playing time the adjusted salary is `0`, below
the threshold, and the sentinel is returned. -/
theorem calculateSalary_floor_witness :
    adjustedSalary 0 0 0 < MINIMUM_SALARY_THRESHOLD ∧
    calculateSalary 0 0 0 = SalaryResult.minimumSalary :=
  have h : adjustedSalary 0 0 0 < MINIMUM_SALARY_THRESHOLD := by
    norm_num [adjustedSalary, baseSalary, MINIMUM_SALARY_THRESHOLD]
  ⟨h, (calculateSalary_floor 0 0 0).1 h⟩

-- =========================================================================
-- C2 — boost symmetry, bound, and the zero-rating case
-- =========================================================================

/-- C2: the boost is `min(0.10, (|rating|/4)^1.2 × 0.10)`; ratings of
equal magnitude and opposite sign get the identical boost, applied as
`(1 + boost)` on the positive side and `(1 − boost)` on the negative
side of the same base salary formula; the boost never exceeds `0.10`;
and a rating of exactly `0` gets no adjustment. -/
theorem boost_symmetry_and_bound (games minutes r : ℝ) (hr : 0 < r) :
    cappedBoost (-r) = cappedBoost r ∧
    adjustedSalary games minutes r = baseSalary games minutes r * (1 + cappedBoost r) ∧
    adjustedSalary games minutes (-r)
      = baseSalary games minutes (-r) * (1 - cappedBoost r) ∧
    (∀ d : ℝ, cappedBoost d ≤ MVP_BONUS_CAP) ∧
    (∀ d : ℝ, cappedBoost d
      = min MVP_BONUS_CAP ((|d| / MVP_BONUS_DIVISOR) ^ MVP_BONUS_EXPONENT * MVP_BONUS_CAP)) ∧
    adjustedSalary games minutes 0 = baseSalary games minutes 0 := by
  have hsym : cappedBoost (-r) = cappedBoost r := by
    rw [cappedBoost, cappedBoost, boostFactor, boostFactor, abs_neg]
  refine ⟨hsym, ?_, ?_, fun d => min_le_right _ _, fun d => min_comm _ _, ?_⟩
  · rw [adjustedSalary, if_pos hr]
  · rw [adjustedSalary, if_neg (by linarith : ¬0 < -r),
      if_pos (by linarith : -r < 0), hsym]
  · rw [adjustedSalary, if_neg (lt_irrefl 0), if_neg (lt_irrefl 0)]

/-- C2 witness: the symmetry, bound, formula and zero-rating facts at
`games = 2`, `minutes = 3`, rating `±1`. -/
theorem boost_symmetry_and_bound_witness :
    cappedBoost (-1) = cappedBoost 1 ∧
    adjustedSalary 2 3 1 = baseSalary 2 3 1 * (1 + cappedBoost 1) ∧
    adjustedSalary 2 3 (-1) = baseSalary 2 3 (-1) * (1 - cappedBoost 1) ∧
    (∀ d : ℝ, cappedBoost d ≤ MVP_BONUS_CAP) ∧
    (∀ d : ℝ, cappedBoost d
      = min MVP_BONUS_CAP ((|d| / MVP_BONUS_DIVISOR) ^ MVP_BONUS_EXPONENT * MVP_BONUS_CAP)) ∧
    adjustedSalary 2 3 0 = baseSalary 2 3 0 :=
  boost_symmetry_and_bound 2 3 1 (by norm_num)

-- =========================================================================
-- C3 — end-to-end example at games=75, minutes=35, rating=5.0
-- =========================================================================

/-- At rating `5`, the raw boost `(5/4)^1.2 × 0.1` exceeds the cap, so
the applied boost is exactly `0.10`. -/
lemma cappedBoost_five : cappedBoost 5 = MVP_BONUS_CAP := by
  have h1 : (1 : ℝ) ≤ (|(5 : ℝ)| / MVP_BONUS_DIVISOR) ^ MVP_BONUS_EXPONENT := by
    apply Real.one_le_rpow
    · rw [abs_of_nonneg (by norm_num : (0:ℝ) ≤ 5)]
      norm_num [MVP_BONUS_DIVISOR]
    · norm_num [MVP_BONUS_EXPONENT]
  have h2 : MVP_BONUS_CAP ≤ boostFactor 5 := by
    have hc : (0 : ℝ) < MVP_BONUS_CAP := by norm_num [MVP_BONUS_CAP]
    rw [boostFactor]
    nlinarith [h1, hc]
  rw [cappedBoost, min_eq_right h2]

/-- The adjusted salary of the example, exactly:
`(75·35/1475)·8·4.32·1.1 = 99792/1475 ≈ 67.6556`. -/
lemma adjustedSalary_example : adjustedSalary 75 35 5 = 99792 / 1475 := by
  rw [adjustedSalary, if_pos (by norm_num : (0:ℝ) < 5), cappedBoost_five, baseSalary]
  norm_num [MINUTES_BASELINE, REPLACEMENT_LEVEL_DARKO, WIN_COST_MILLIONS, MVP_BONUS_CAP]

/-- The example value returned by `calculateSalary(75, 35, 5.0)`:
`67.6556` rounds to `67.7`. -/
lemma calculateSalary_example_value :
    calculateSalary 75 35 5 = SalaryResult.value (677 / 10) := by
  rw [calculateSalary, adjustedSalary_example,
    if_neg (by norm_num [MINIMUM_SALARY_THRESHOLD])]
  have h1 : round ((99792 : ℝ) / 1475 * 10) = 677 := by
    rw [round_eq]
    norm_num [Int.floor_eq_iff]
  rw [toFixed1, h1]
  norm_num

/-- C3 counterexample: on the spec's example input the code returns
`67.7` million, not `67.6`. -/
theorem calculateSalary_example_not_676 :
    calculateSalary 75 35 5 = SalaryResult.value (67.7 : ℝ) ∧
    calculateSalary 75 35 5 ≠ SalaryResult.value (67.6 : ℝ) := by
  have h := calculateSalary_example_value
  constructor
  · rw [h]
    norm_num
  · rw [h]
    simp only [ne_eq, SalaryResult.value.injEq]
    norm_num

/-- C3 (amended): for games=75, minutes=35, rating=5.0 the code computes
`winsAboveReplacement = 75×35/1475×8 = 840/59 = 14.237...`, a base
salary of `18144/295 ≈ 61.51`, a boost capped at `0.10`, and returns
`67.7` million after rounding to one decimal. -/
theorem calculateSalary_example :
    (75 : ℝ) * 35 / MINUTES_BASELINE * (5 - REPLACEMENT_LEVEL_DARKO) = 840 / 59 ∧
    baseSalary 75 35 5 = 18144 / 295 ∧
    cappedBoost 5 = MVP_BONUS_CAP ∧
    adjustedSalary 75 35 5 = 99792 / 1475 ∧
    calculateSalary 75 35 5 = SalaryResult.value (67.7 : ℝ) := by
  refine ⟨?_, ?_, cappedBoost_five, adjustedSalary_example, ?_⟩
  · norm_num [MINUTES_BASELINE, REPLACEMENT_LEVEL_DARKO]
  · rw [baseSalary]
    norm_num [MINUTES_BASELINE, REPLACEMENT_LEVEL_DARKO, WIN_COST_MILLIONS]
  · rw [calculateSalary_example_value]
    norm_num

-- =========================================================================
-- C4 — projection pipeline ratings, inflation, current-season partial year
-- =========================================================================

/-- The inline future-year loop and the utility function agree (the
`false` flag adds no partial-year term). -/
lemma inlineCumulativeDelta_eq (p : Player) (n : ℕ) :
    inlineCumulativeDelta p n = getCumulativeAgingDelta p.age p.pos n false := rfl

/-- The future-row effective rating is the spec's
`baseRating + manualAdjustment + cumulativeDelta(age, cat, k, false)`. -/
lemma projectedDarko_eq (p : Player) (s : Scenario) (k : ℕ) :
    projectedDarko p s k
      = p.darko + s.improvement + getCumulativeAgingDelta p.age p.pos k false := rfl

/-- C4: the pipeline builds one row per future season label in order;
row `idx` (season `k = idx + 1`) displays the valuation of
`baseRating + manualAdjustment + cumulativeDelta(age, cat, k, false)` —
no partial-current-year term — multiplied, when numeric, by the
season's inflation multiplier with default `1`; and the current-season
valuation is the only one using the partial-year delta,
`baseRating + manualAdjustment + partialYearDelta(age, cat, progress)`. -/
theorem projection_rows_spec (p : Player) (s : Scenario) :
    futureRows p s =
      [futureRow p s 0 "2026-27", futureRow p s 1 "2027-28", futureRow p s 2 "2028-29",
       futureRow p s 3 "2029-30", futureRow p s 4 "2030-31"] ∧
    (∀ idx : ℕ, ∀ seasonLabel : String,
      (futureRow p s idx seasonLabel).displaySalary
        = specSeasonValue p s (idx + 1) seasonLabel) ∧
    currentYearSalary p s
      = calculateSalary (s.games : ℝ) (s.minutes : ℝ)
          ((p.darko + s.improvement + getPartialYearAgingDelta p.age p.pos dataAsOfDate : ℚ) : ℝ) := by
  refine ⟨rfl, fun idx seasonLabel => ?_, rfl⟩
  have hd : rawSalary p s (idx + 1)
      = calculateSalary (s.games : ℝ) (s.minutes : ℝ)
          ((p.darko + s.improvement
            + getCumulativeAgingDelta p.age p.pos (idx + 1) false : ℚ) : ℝ) := by
    rw [rawSalary, projectedDarko_eq]
  rw [futureRow, specSeasonValue]
  simp only [inflatedValue, hd]
  cases calculateSalary (s.games : ℝ) (s.minutes : ℝ)
      ((p.darko + s.improvement
        + getCumulativeAgingDelta p.age p.pos (idx + 1) false : ℚ) : ℝ) with
  | minimumSalary => rfl
  | value v => rfl

-- =========================================================================
-- C5 — surplus aggregation
-- =========================================================================

/-- The mutation of `runningTotalSurplus` across the rows is the sum of
the defined surpluses. -/
lemma foldl_surplus (l : List ProjectionRow) (init : ℝ) :
    l.foldl (fun acc r => match r.surplus with | some v => acc + v | none => acc) init
      = init + (l.map (fun r => r.surplus.getD 0)).sum := by
  induction l generalizing init with
  | nil => simp
  | cons r t ih =>
      rw [List.foldl_cons, ih, List.map_cons, List.sum_cons]
      cases r.surplus with
      | none => simp
      | some v => simp [add_assoc]

/-- A future row's surplus is `null` exactly when the season's contract
figure is absent or zero. -/
lemma futureRow_surplus_none_iff (p : Player) (s : Scenario) (idx : ℕ)
    (seasonLabel : String) :
    ((futureRow p s idx seasonLabel).surplus = none
      ↔ optTruthy ((futureRow p s idx seasonLabel).actualSalary) = false) := by
  rw [futureRow]
  cases h : p.futureSalaries seasonLabel with
  | none => simp [optTruthy, h]
  | some a =>
      by_cases ha : a = 0
      · simp [optTruthy, h, ha]
      · simp [optTruthy, h, ha]

/-- C5: the running total surplus is the initial (current-season)
surplus plus the sum of the future rows' surpluses counting absent ones
as zero; there are exactly five future rows; a row's surplus is absent
exactly when that season has no (nonzero) contract figure, and when
present it is the inflated projected value minus the contract figure;
and a free agent contributes no current-season surplus. -/
theorem surplus_aggregation (p : Player) (s : Scenario) :
    runningTotalSurplus p s
      = initialSurplus p s + ((futureRows p s).map (fun r => r.surplus.getD 0)).sum ∧
    (futureRows p s).length = 5 ∧
    (∀ r ∈ futureRows p s,
      (r.surplus = none ↔ optTruthy r.actualSalary = false)) ∧
    (∀ idx : ℕ, ∀ seasonLabel : String, ∀ a : ℚ,
      p.futureSalaries seasonLabel = some a → a ≠ 0 →
      (futureRow p s idx seasonLabel).surplus
        = some (inflatedValue p s (idx + 1) seasonLabel - (a : ℝ))) ∧
    (p.actualSalary = 0 → initialSurplus p s = 0) := by
  refine ⟨foldl_surplus _ _, rfl, fun r hr => ?_, fun idx seasonLabel a ha hne => ?_,
    fun h0 => ?_⟩
  · obtain ⟨pair, -, rfl⟩ := List.mem_map.mp hr
    exact futureRow_surplus_none_iff p s pair.1 pair.2
  · rw [futureRow]
    simp [ha, hne]
  · rw [initialSurplus, if_neg (by simp [h0])]

/-- C5 witness: concrete instances — the `2026-27` row of a player with
a zero contract figure has an absent surplus; a nonzero contract figure
yields the inflated-minus-actual surplus; a free agent contributes no
current-season surplus. -/
theorem surplus_aggregation_witness :
    futureRow zeroSalaryPlayer benchScenario 0 "2026-27"
      ∈ futureRows zeroSalaryPlayer benchScenario ∧
    ((futureRow zeroSalaryPlayer benchScenario 0 "2026-27").surplus = none ↔
      optTruthy ((futureRow zeroSalaryPlayer benchScenario 0 "2026-27").actualSalary)
        = false) ∧
    minValuedPlayer.futureSalaries "2026-27" = some 5 ∧ (5 : ℚ) ≠ 0 ∧
    (futureRow minValuedPlayer benchScenario 0 "2026-27").surplus
      = some (inflatedValue minValuedPlayer benchScenario 1 "2026-27" - ((5 : ℚ) : ℝ)) ∧
    zeroSalaryPlayer.actualSalary = 0 ∧
    initialSurplus zeroSalaryPlayer benchScenario = 0 := by
  have hmem : futureRow zeroSalaryPlayer benchScenario 0 "2026-27"
      ∈ futureRows zeroSalaryPlayer benchScenario := List.mem_cons_self _ _
  refine ⟨hmem,
    (surplus_aggregation zeroSalaryPlayer benchScenario).2.2.1 _ hmem,
    rfl, by norm_num,
    (surplus_aggregation minValuedPlayer benchScenario).2.2.2.1 0 "2026-27" 5 rfl
      (by norm_num),
    rfl,
    (surplus_aggregation zeroSalaryPlayer benchScenario).2.2.2.2 rfl⟩

-- =========================================================================
-- C10 — sentinel-valued seasons contribute zero to the surplus
-- =========================================================================

/-- C10: when a season's valuation is the minimum-salary sentinel and an
actual contract figure exists, the surplus is `0 − actual` — the
sentinel contributes zero dollars, not `3.0` — both for the current
season and for every future row. -/
theorem sentinel_surplus_zero (p : Player) (s : Scenario) :
    (p.actualSalary ≠ 0 → currentYearSalary p s = .minimumSalary →
      initialSurplus p s = 0 - (p.actualSalary : ℝ)) ∧
    (∀ idx : ℕ, ∀ seasonLabel : String, ∀ a : ℚ,
      p.futureSalaries seasonLabel = some a → a ≠ 0 →
      rawSalary p s (idx + 1) = .minimumSalary →
      (futureRow p s idx seasonLabel).surplus = some (0 - (a : ℝ))) := by
  constructor
  · intro h hmin
    simp [initialSurplus, currentProjNum, hmin, h]
  · intro idx seasonLabel a ha hne hmin
    rw [futureRow]
    simp [ha, hne, inflatedValue, hmin]

/-- With no playing time the base salary is `0`, hence so is the
adjusted salary for every rating. -/
lemma adjustedSalary_no_minutes (d : ℝ) : adjustedSalary 0 0 d = 0 := by
  have hb : baseSalary 0 0 d = 0 := by simp [baseSalary]
  rw [adjustedSalary]
  split_ifs <;> simp [hb]

/-- With no playing time every rating is valued at the sentinel. -/
lemma calculateSalary_no_minutes (d : ℝ) :
    calculateSalary 0 0 d = SalaryResult.minimumSalary := by
  rw [calculateSalary, if_pos]
  rw [adjustedSalary_no_minutes]
  norm_num [MINIMUM_SALARY_THRESHOLD]

/-- Under the bench scenario the current-season valuation is the
sentinel. -/
lemma currentYearSalary_bench (p : Player) :
    currentYearSalary p benchScenario = SalaryResult.minimumSalary := by
  rw [currentYearSalary]
  simp only [benchScenario, Rat.cast_zero]
  exact calculateSalary_no_minutes _

/-- Under the bench scenario every future-year valuation is the
sentinel. -/
lemma rawSalary_bench (p : Player) (k : ℕ) :
    rawSalary p benchScenario k = SalaryResult.minimumSalary := by
  rw [rawSalary]
  simp only [benchScenario, Rat.cast_zero]
  exact calculateSalary_no_minutes _

/-- C10 witness: a contracted player valued at the sentinel in the
current season and in `2026-27` has surpluses `0 − 10` and `0 − 5`. -/
theorem sentinel_surplus_zero_witness :
    minValuedPlayer.actualSalary ≠ 0 ∧
    currentYearSalary minValuedPlayer benchScenario = SalaryResult.minimumSalary ∧
    initialSurplus minValuedPlayer benchScenario
      = 0 - (minValuedPlayer.actualSalary : ℝ) ∧
    minValuedPlayer.futureSalaries "2026-27" = some 5 ∧
    rawSalary minValuedPlayer benchScenario 1 = SalaryResult.minimumSalary ∧
    (futureRow minValuedPlayer benchScenario 0 "2026-27").surplus
      = some (0 - ((5 : ℚ) : ℝ)) := by
  have h1 : minValuedPlayer.actualSalary ≠ 0 := by norm_num [minValuedPlayer]
  have h2 := currentYearSalary_bench minValuedPlayer
  have h3 := rawSalary_bench minValuedPlayer 1
  exact ⟨h1, h2, (sentinel_surplus_zero _ _).1 h1 h2, rfl, h3,
    (sentinel_surplus_zero _ _).2 0 "2026-27" 5 rfl (by norm_num) h3⟩
